import Mathlib

/-!
QDeclarativeVideoOutput: geometry, fill mode, frame presentation, paint node.

A shallow embedding of `src/imports/multimedia/qdeclarativevideooutput.cpp`.
Reals (`qreal`) are taken as exact rationals.  The item is a record of its
member variables together with the `QQuickItem` properties the file reads
(`width()`, `height()`) and a log of the calls it makes on its base class
(`update()`, emitted signals).
-/

namespace VideoOutput

/-! ## Qt value types used by the file -/

/-- Integer size, as `QSize` (`wd`, `ht`). -/
structure QSize where
  wd : Int
  ht : Int
  deriving DecidableEq, Repr

/-- Rational size, as `QSizeF` (`wd`, `ht`). -/
structure QSizeF where
  wd : ℚ
  ht : ℚ
  deriving DecidableEq, Repr

/-- Rational point, as `QPointF` (`xp`, `yp`). -/
structure QPointF where
  xp : ℚ
  yp : ℚ
  deriving DecidableEq, Repr

/-- Rational rectangle, as `QRectF` (`xp`, `yp`, `w`, `h`). -/
structure QRectF where
  xp : ℚ
  yp : ℚ
  w : ℚ
  h : ℚ
  deriving DecidableEq, Repr

/-- The aspect ratio modes of `Qt::AspectRatioMode`. -/
inductive AspectRatioMode where
  | IgnoreAspectRatio
  | KeepAspectRatio
  | KeepAspectRatioByExpanding
  deriving DecidableEq, Repr

/-- Modelled from the spec: the enumeration `QDeclarativeVideoOutput::FillMode` is declared in
`qdeclarativevideooutput_p.h`, which is not among the sources; its three values are the ones
listed by the `VideoOutput::fillMode` documentation and tested by `_q_updateGeometry`. -/
inductive FillMode where
  | Stretch
  | PreserveAspectFit
  | PreserveAspectCrop
  deriving DecidableEq, Repr

/-- Modelled from the spec: `QSize::isEmpty()` of the Qt library, true when either dimension is
less than one. -/
def QSize.isEmpty (s : QSize) : Bool :=
  decide (s.wd < 1) || decide (s.ht < 1)

/-- The conversion `QSizeF(const QSize &)` performed by `QSizeF size = m_nativeSize`. -/
def QSize.toQSizeF (s : QSize) : QSizeF :=
  ⟨(s.wd : ℚ), (s.ht : ℚ)⟩

/-- Modelled from the spec: `qIsNull(qreal)` of the Qt library, in exact arithmetic. -/
def qIsNull (d : ℚ) : Bool :=
  decide (d = 0)

/-- Modelled from the spec: `QSizeF::scale(const QSizeF &s, Qt::AspectRatioMode mode)` of the Qt
library, in exact arithmetic.  With `IgnoreAspectRatio`, or when one of the own dimensions is
null, the size becomes `s`; otherwise the size is scaled uniformly so that one dimension equals
that of `s`, the other being at most (`KeepAspectRatio`) or at least
(`KeepAspectRatioByExpanding`) that of `s`. -/
def QSizeF.scale (self s : QSizeF) (mode : AspectRatioMode) : QSizeF :=
  if mode = AspectRatioMode.IgnoreAspectRatio || qIsNull self.wd || qIsNull self.ht then
    ⟨s.wd, s.ht⟩
  else
    let rw : ℚ := s.ht * self.wd / self.ht
    let useHeight : Bool :=
      if mode = AspectRatioMode.KeepAspectRatio then decide (rw ≤ s.wd) else decide (rw ≥ s.wd)
    if useHeight then
      ⟨rw, s.ht⟩
    else
      ⟨s.wd, s.wd * self.ht / self.wd⟩

/-- Modelled from the spec: `QRectF::size()` of the Qt library. -/
def QRectF.size (r : QRectF) : QSizeF :=
  ⟨r.w, r.h⟩

/-- Modelled from the spec: `QRectF::center()` of the Qt library. -/
def QRectF.center (r : QRectF) : QPointF :=
  ⟨r.xp + r.w / 2, r.yp + r.h / 2⟩

/-- Modelled from the spec: `QRectF::moveCenter(const QPointF &)` of the Qt library: the
rectangle keeps its size and its centre becomes `p`. -/
def QRectF.moveCenter (r : QRectF) (p : QPointF) : QRectF :=
  ⟨p.xp - r.w / 2, p.yp - r.h / 2, r.w, r.h⟩

/-! ## Frames, surface formats, scenegraph nodes -/

/-- Pixel formats (`QVideoFrame::PixelFormat`) as their numeric codes; `0` is `Format_Invalid`. -/
abbrev PixelFormat := Nat

/-- Buffer handle types (`QAbstractVideoBuffer::HandleType`) as their numeric codes. -/
abbrev HandleType := Nat

/-- A video frame: its buffer (absent for a default-constructed frame) and pixel format. -/
structure QVideoFrame where
  buffer : Option Nat
  pixelFormat : PixelFormat
  deriving DecidableEq, Repr

/-- Modelled from the spec: `QVideoFrame::isValid()` of the Qt library: the frame has a buffer. -/
def QVideoFrame.isValid (f : QVideoFrame) : Bool :=
  f.buffer.isSome

/-- The default-constructed (invalid) frame `QVideoFrame()`. -/
def QVideoFrame.null : QVideoFrame :=
  ⟨none, 0⟩

/-- A surface format: pixel format, handle type and size hint. -/
structure QVideoSurfaceFormat where
  pixelFormat : PixelFormat
  handleType : HandleType
  sizeHint : QSize
  deriving DecidableEq, Repr

/-- A scenegraph video node: the factory-specific identity `kind`, the pixel format it draws,
and what `setTexturedRectGeometry` and `setCurrentFrame` last stored in it. -/
structure QSGVideoNode where
  kind : Nat
  pixelFormat : PixelFormat
  m_rect : QRectF
  m_textureRect : QRectF
  m_frame : QVideoFrame
  deriving DecidableEq, Repr

/-- Modelled from the spec: `QSGVideoNode::setTexturedRectGeometry` (in `qsgvideonode.cpp`, not
among the sources): the node's geometry becomes the two rectangles. -/
def QSGVideoNode.setTexturedRectGeometry (n : QSGVideoNode) (rect textureRect : QRectF) :
    QSGVideoNode :=
  { n with m_rect := rect, m_textureRect := textureRect }

/-- Modelled from the spec: `QSGVideoNode::setCurrentFrame` (implemented by the node classes,
not among the sources): the node's current frame becomes `frame`. -/
def QSGVideoNode.setCurrentFrame (n : QSGVideoNode) (frame : QVideoFrame) : QSGVideoNode :=
  { n with m_frame := frame }

/-- A node factory (`QSGVideoNodeFactory`): its two virtual functions.  The factories
themselves (`QSGVideoNodeFactory_I420`, `QSGVideoNodeFactory_RGB`) are not among the sources and
are parameters of the development. -/
structure QSGVideoNodeFactory where
  supportedPixelFormats : HandleType → List PixelFormat
  createNode : QVideoSurfaceFormat → Option QSGVideoNode

/-! ## The item -/

/-- Calls the item makes on its `QQuickItem` base: repaint requests and emitted signals. -/
inductive Event where
  | update
  | fillModeChanged (mode : FillMode)
  | sourceChanged
  deriving DecidableEq, Repr

/-- The item: the `QQuickItem` properties read or written by the file, the member variables,
the surface format of `m_surface`, and the log of calls made on the base class. -/
structure QDeclarativeVideoOutput where
  parent : Option Nat
  width : ℚ
  height : ℚ
  implicitWidth : ℚ
  implicitHeight : ℚ
  itemHasContents : Bool
  m_fillMode : FillMode
  m_nativeSize : QSize
  m_boundingRect : QRectF
  m_sourceRect : QRectF
  m_frame : QVideoFrame
  m_videoNodeFactories : List QSGVideoNodeFactory
  surfaceFormat : QVideoSurfaceFormat
  log : List Event

/-- The constructor `QDeclarativeVideoOutput::QDeclarativeVideoOutput(QQuickItem *parent)`.
The two factory objects it allocates are given as `i420` and `rgb`. -/
def QDeclarativeVideoOutput.new (i420 rgb : QSGVideoNodeFactory) (parent : Option Nat) :
    QDeclarativeVideoOutput :=
  { parent := parent
    width := 0
    height := 0
    implicitWidth := 0
    implicitHeight := 0
    itemHasContents := true
    m_fillMode := FillMode.PreserveAspectFit
    m_nativeSize := ⟨-1, -1⟩
    m_boundingRect := ⟨0, 0, 0, 0⟩
    m_sourceRect := ⟨0, 0, 0, 0⟩
    m_frame := QVideoFrame.null
    m_videoNodeFactories := ([] ++ [i420]) ++ [rgb]
    surfaceFormat := ⟨0, 0, ⟨-1, -1⟩⟩
    log := [] }

/-- The base-class call `update()`: a repaint request is recorded. -/
def QDeclarativeVideoOutput.update (s : QDeclarativeVideoOutput) : QDeclarativeVideoOutput :=
  { s with log := s.log ++ [Event.update] }

/-- Emission of a signal: the emission is recorded. -/
def QDeclarativeVideoOutput.emit (s : QDeclarativeVideoOutput) (e : Event) :
    QDeclarativeVideoOutput :=
  { s with log := s.log ++ [e] }

/-- The member `QDeclarativeVideoOutput::present(const QVideoFrame &frame)`. -/
def QDeclarativeVideoOutput.present (s : QDeclarativeVideoOutput) (frame : QVideoFrame) :
    QDeclarativeVideoOutput :=
  ({ s with m_frame := frame }).update

/-- The getter `QDeclarativeVideoOutput::fillMode()`. -/
def QDeclarativeVideoOutput.fillMode (s : QDeclarativeVideoOutput) : FillMode :=
  s.m_fillMode

/-- The setter `QDeclarativeVideoOutput::setFillMode(FillMode mode)`. -/
def QDeclarativeVideoOutput.setFillMode (s : QDeclarativeVideoOutput) (mode : FillMode) :
    QDeclarativeVideoOutput :=
  if mode = s.m_fillMode then
    s
  else
    (({ s with m_fillMode := mode }).update).emit (Event.fillModeChanged mode)

/-- The slot `QDeclarativeVideoOutput::_q_updateNativeSize(const QVideoSurfaceFormat &format)`. -/
def QDeclarativeVideoOutput._q_updateNativeSize (s : QDeclarativeVideoOutput)
    (format : QVideoSurfaceFormat) : QDeclarativeVideoOutput :=
  let size := format.sizeHint
  if s.m_nativeSize ≠ size then
    { s with m_nativeSize := size, implicitWidth := (size.wd : ℚ), implicitHeight := (size.ht : ℚ) }
  else
    s

/-- The slot `QDeclarativeVideoOutput::_q_updateGeometry()`. -/
def QDeclarativeVideoOutput._q_updateGeometry (s : QDeclarativeVideoOutput) :
    QDeclarativeVideoOutput :=
  let rect : QRectF := ⟨0, 0, s.width, s.height⟩
  if s.m_nativeSize.isEmpty then
    { s with m_boundingRect := rect, m_sourceRect := ⟨0, 0, 1, 1⟩ }
  else if s.m_fillMode = FillMode.Stretch then
    { s with m_boundingRect := rect, m_sourceRect := ⟨0, 0, 1, 1⟩ }
  else if s.m_fillMode = FillMode.PreserveAspectFit then
    let size : QSizeF := s.m_nativeSize.toQSizeF.scale rect.size AspectRatioMode.KeepAspectRatio
    let b : QRectF := ⟨0, 0, size.wd, size.ht⟩
    { s with m_boundingRect := b.moveCenter rect.center, m_sourceRect := ⟨0, 0, 1, 1⟩ }
  else if s.m_fillMode = FillMode.PreserveAspectCrop then
    let size : QSizeF := rect.size.scale s.m_nativeSize.toQSizeF AspectRatioMode.KeepAspectRatio
    let src : QRectF :=
      ⟨0, 0, size.wd / (s.m_nativeSize.wd : ℚ), size.ht / (s.m_nativeSize.ht : ℚ)⟩
    { s with m_boundingRect := rect, m_sourceRect := src.moveCenter ⟨1 / 2, 1 / 2⟩ }
  else
    s

/-- The loop `foreach (QSGVideoNodeFactory* factory, m_videoNodeFactories)` of
`updatePaintNode`: each factory in list order is asked for a node and the loop stops at the
first node that is not null. -/
def createFirstNode (format : QVideoSurfaceFormat) :
    List QSGVideoNodeFactory → Option QSGVideoNode
  | [] => none
  | factory :: rest =>
    match factory.createNode format with
    | some videoNode => some videoNode
    | none => createFirstNode format rest

/-- The member `QDeclarativeVideoOutput::updatePaintNode(QSGNode *oldNode, ...)`: the node
returned (`none` for a null pointer) and the item afterwards. -/
def QDeclarativeVideoOutput.updatePaintNode (s : QDeclarativeVideoOutput)
    (oldNode : Option QSGVideoNode) : Option QSGVideoNode × QDeclarativeVideoOutput :=
  let videoNode : Option QSGVideoNode :=
    match oldNode with
    | some n => if n.pixelFormat ≠ s.m_frame.pixelFormat then none else some n
    | none => none
  if !s.m_frame.isValid then
    (none, s)
  else
    let videoNode : Option QSGVideoNode :=
      match videoNode with
      | none => createFirstNode s.surfaceFormat s.m_videoNodeFactories
      | some n => some n
    match videoNode with
    | none => (none, s)
    | some n =>
      let s1 := s._q_updateGeometry
      (some ((n.setTexturedRectGeometry s1.m_boundingRect s1.m_sourceRect).setCurrentFrame
        s1.m_frame), s1)

/-! ## The surface handed to the renderer control -/

/-- Messages written with `qWarning()`; they are not part of the item. -/
inductive Warning where
  | badFrames
  deriving DecidableEq, Repr

/-- Outcome of a call on the surface: the value returned, the item afterwards and the
warnings printed. -/
structure SurfaceResult where
  value : Bool
  item : QDeclarativeVideoOutput
  warnings : List Warning

/-- The member `QSGVideoItemSurface::supportedPixelFormats(handleType)`. -/
def QSGVideoItemSurface.supportedPixelFormats (m_item : QDeclarativeVideoOutput)
    (handleType : HandleType) : List PixelFormat :=
  m_item.m_videoNodeFactories.foldl
    (fun formats factory => formats ++ factory.supportedPixelFormats handleType) []

/-- The member `QSGVideoItemSurface::present(const QVideoFrame &frame)`. -/
def QSGVideoItemSurface.present (m_item : QDeclarativeVideoOutput) (frame : QVideoFrame) :
    SurfaceResult :=
  if !frame.isValid then
    ⟨false, m_item, [Warning.badFrames]⟩
  else
    ⟨true, m_item.present frame, []⟩

/-- The member `QSGVideoItemSurface::start(const QVideoSurfaceFormat &format)`.  The base
class `QAbstractVideoSurface::start` stores the format as the surface format and returns true;
the `surfaceFormatChanged` signal it emits reaches `_q_updateNativeSize` later, through the
queued connection made by the constructor. -/
def QSGVideoItemSurface.start (m_item : QDeclarativeVideoOutput) (format : QVideoSurfaceFormat) :
    SurfaceResult :=
  if !(QSGVideoItemSurface.supportedPixelFormats m_item format.handleType).contains
      format.pixelFormat then
    ⟨false, m_item, []⟩
  else
    ⟨true, { m_item with surfaceFormat := format }, []⟩

/-! ## Fixtures -/

/-- The `QQuickItem` geometry setters `setWidth` and `setHeight`, as far as this file
observes them. -/
def QDeclarativeVideoOutput.setSize (s : QDeclarativeVideoOutput) (w h : ℚ) :
    QDeclarativeVideoOutput :=
  { s with width := w, height := h }

/-- A factory that supports one pixel format and creates nodes of the given kind for it. -/
def singleFormatFactory (kind : Nat) (fmt : PixelFormat) : QSGVideoNodeFactory :=
  { supportedPixelFormats := fun _ => [fmt]
    createNode := fun format =>
      if format.pixelFormat = fmt then
        some ⟨kind, fmt, ⟨0, 0, 0, 0⟩, ⟨0, 0, 0, 0⟩, QVideoFrame.null⟩
      else none }

/-- An item as constructed, then given a fill mode, a native size and an item size. -/
def sampleItem (mode : FillMode) (native : QSize) (w h : ℚ) : QDeclarativeVideoOutput :=
  (((QSGVideoItemSurface.start
    ((QDeclarativeVideoOutput.new (singleFormatFactory 1 18) (singleFormatFactory 2 3)
      none).setFillMode mode) ⟨3, 0, native⟩).item._q_updateNativeSize ⟨3, 0, native⟩).setSize w h)

/-! ## Shared lemmas -/

theorem isEmpty_eq_false_iff (n : QSize) : n.isEmpty = false ↔ 0 < n.wd ∧ 0 < n.ht := by
  unfold QSize.isEmpty
  simp
  omega

theorem updateGeometry_fit (s : QDeclarativeVideoOutput)
    (hw : 0 < s.m_nativeSize.wd) (hh : 0 < s.m_nativeSize.ht)
    (hm : s.m_fillMode = FillMode.PreserveAspectFit) :
    s._q_updateGeometry.m_boundingRect =
        (if s.height * (s.m_nativeSize.wd : ℚ) / (s.m_nativeSize.ht : ℚ) ≤ s.width then
          ⟨s.width / 2 - s.height * (s.m_nativeSize.wd : ℚ) / (s.m_nativeSize.ht : ℚ) / 2,
            s.height / 2 - s.height / 2,
            s.height * (s.m_nativeSize.wd : ℚ) / (s.m_nativeSize.ht : ℚ), s.height⟩
        else
          ⟨s.width / 2 - s.width / 2,
            s.height / 2 - s.width * (s.m_nativeSize.ht : ℚ) / (s.m_nativeSize.wd : ℚ) / 2,
            s.width, s.width * (s.m_nativeSize.ht : ℚ) / (s.m_nativeSize.wd : ℚ)⟩) ∧
      s._q_updateGeometry.m_sourceRect = ⟨0, 0, 1, 1⟩ := by
  have he : s.m_nativeSize.isEmpty = false := (isEmpty_eq_false_iff _).2 ⟨hw, hh⟩
  have hw0 : (s.m_nativeSize.wd : ℚ) ≠ 0 := by exact_mod_cast hw.ne.symm
  have hh0 : (s.m_nativeSize.ht : ℚ) ≠ 0 := by exact_mod_cast hh.ne.symm
  by_cases c : s.height * (s.m_nativeSize.wd : ℚ) / (s.m_nativeSize.ht : ℚ) ≤ s.width <;>
    simp [QDeclarativeVideoOutput._q_updateGeometry, he, hm, QRectF.size, QSizeF.scale, qIsNull,
      QSize.toQSizeF, QRectF.moveCenter, QRectF.center, hw0, hh0, c]

theorem updateGeometry_crop (s : QDeclarativeVideoOutput)
    (hW : s.width ≠ 0) (hH : s.height ≠ 0)
    (hw : 0 < s.m_nativeSize.wd) (hh : 0 < s.m_nativeSize.ht)
    (hm : s.m_fillMode = FillMode.PreserveAspectCrop) :
    s._q_updateGeometry.m_boundingRect = ⟨0, 0, s.width, s.height⟩ ∧
      s._q_updateGeometry.m_sourceRect =
        (if (s.m_nativeSize.ht : ℚ) * s.width / s.height ≤ (s.m_nativeSize.wd : ℚ) then
          ⟨1 / 2 - (s.m_nativeSize.ht : ℚ) * s.width / s.height / (s.m_nativeSize.wd : ℚ) / 2,
            1 / 2 - (s.m_nativeSize.ht : ℚ) / (s.m_nativeSize.ht : ℚ) / 2,
            (s.m_nativeSize.ht : ℚ) * s.width / s.height / (s.m_nativeSize.wd : ℚ),
            (s.m_nativeSize.ht : ℚ) / (s.m_nativeSize.ht : ℚ)⟩
        else
          ⟨1 / 2 - (s.m_nativeSize.wd : ℚ) / (s.m_nativeSize.wd : ℚ) / 2,
            1 / 2 - (s.m_nativeSize.wd : ℚ) * s.height / s.width / (s.m_nativeSize.ht : ℚ) / 2,
            (s.m_nativeSize.wd : ℚ) / (s.m_nativeSize.wd : ℚ),
            (s.m_nativeSize.wd : ℚ) * s.height / s.width / (s.m_nativeSize.ht : ℚ)⟩) := by
  have he : s.m_nativeSize.isEmpty = false := (isEmpty_eq_false_iff _).2 ⟨hw, hh⟩
  by_cases c : (s.m_nativeSize.ht : ℚ) * s.width / s.height ≤ (s.m_nativeSize.wd : ℚ) <;>
    simp [QDeclarativeVideoOutput._q_updateGeometry, he, hm, QRectF.size, QSizeF.scale, qIsNull,
      QSize.toQSizeF, QRectF.moveCenter, hW, hH, c]

theorem createFirstNode_spec (format : QVideoSurfaceFormat) (fs : List QSGVideoNodeFactory) :
    (∃ pre f post n0, fs = pre ++ f :: post ∧ (∀ g ∈ pre, g.createNode format = none) ∧
        f.createNode format = some n0 ∧ createFirstNode format fs = some n0) ∨
      ((∀ g ∈ fs, g.createNode format = none) ∧ createFirstNode format fs = none) := by
  induction fs with
  | nil => exact Or.inr ⟨by simp, rfl⟩
  | cons f rest ih =>
    cases hf : f.createNode format with
    | some n0 =>
      exact Or.inl ⟨[], f, rest, n0, rfl, by simp, hf, by simp [createFirstNode, hf]⟩
    | none =>
      rcases ih with ⟨pre, g, post, n0, hsplit, hpre, hg, hres⟩ | ⟨hall, hres⟩
      · refine Or.inl ⟨f :: pre, g, post, n0, by simp [hsplit], ?_, hg, by
          simp [createFirstNode, hf, hres]⟩
        intro k hk
        rcases List.mem_cons.1 hk with rfl | hk
        · exact hf
        · exact hpre k hk
      · refine Or.inr ⟨?_, by simp [createFirstNode, hf, hres]⟩
        intro k hk
        rcases List.mem_cons.1 hk with rfl | hk
        · exact hf
        · exact hall k hk

theorem updateGeometry_stretch (s : QDeclarativeVideoOutput)
    (hm : s.m_fillMode = FillMode.Stretch) :
    s._q_updateGeometry.m_boundingRect = ⟨0, 0, s.width, s.height⟩ ∧
      s._q_updateGeometry.m_sourceRect = ⟨0, 0, 1, 1⟩ := by
  unfold QDeclarativeVideoOutput._q_updateGeometry
  by_cases he : s.m_nativeSize.isEmpty = true <;> simp [he, hm]

theorem updateNativeSize_fillMode (s : QDeclarativeVideoOutput) (f : QVideoSurfaceFormat) :
    (s._q_updateNativeSize f).m_fillMode = s.m_fillMode := by
  unfold QDeclarativeVideoOutput._q_updateNativeSize
  dsimp only
  split <;> rfl

theorem updateNativeSize_nativeSize (s : QDeclarativeVideoOutput) (f : QVideoSurfaceFormat) :
    (s._q_updateNativeSize f).m_nativeSize = f.sizeHint := by
  unfold QDeclarativeVideoOutput._q_updateNativeSize
  dsimp only
  split
  · rfl
  · rename_i hne
    exact not_not.1 hne

theorem sampleItem_fillMode (m : FillMode) (n : QSize) (w h : ℚ) :
    (sampleItem m n w h).m_fillMode = m := by
  unfold sampleItem QDeclarativeVideoOutput.setSize
  dsimp only
  rw [updateNativeSize_fillMode]
  cases m <;> rfl

theorem sampleItem_nativeSize (m : FillMode) (n : QSize) (w h : ℚ) :
    (sampleItem m n w h).m_nativeSize = n := by
  unfold sampleItem QDeclarativeVideoOutput.setSize
  dsimp only
  rw [updateNativeSize_nativeSize]

theorem updateGeometry_frame (s : QDeclarativeVideoOutput) :
    s._q_updateGeometry.m_frame = s.m_frame := by
  unfold QDeclarativeVideoOutput._q_updateGeometry
  dsimp only
  split
  · rfl
  · split
    · rfl
    · split
      · rfl
      · split <;> rfl

theorem sampleItem_factories (m : FillMode) (n : QSize) (w h : ℚ) (f : QVideoFrame) :
    (QSGVideoItemSurface.present (sampleItem m n w h) f).item.m_videoNodeFactories =
      [singleFormatFactory 1 18, singleFormatFactory 2 3] := by
  unfold QSGVideoItemSurface.present sampleItem QDeclarativeVideoOutput.setSize
    QDeclarativeVideoOutput._q_updateNativeSize
  dsimp only
  cases m <;> split <;> split <;> rfl

theorem sampleItem_surfaceFormat (m : FillMode) (n : QSize) (w h : ℚ) (f : QVideoFrame) :
    (QSGVideoItemSurface.present (sampleItem m n w h) f).item.surfaceFormat = ⟨3, 0, n⟩ := by
  unfold QSGVideoItemSurface.present sampleItem QDeclarativeVideoOutput.setSize
    QDeclarativeVideoOutput._q_updateNativeSize
  dsimp only
  cases m <;> split <;> split <;> rfl

/-! ## PreserveAspectFit -/

/-- C1: with fill mode PreserveAspectFit, a positive item size `W x H` and a non-empty native
size `w x h`, after `_q_updateGeometry` the bounding rectangle has the native aspect ratio,
has positive size, lies inside the item rectangle, equals it in at least one dimension, is
centred at `(W/2, H/2)`, and the source rectangle is the whole frame `(0, 0, 1, 1)`. -/
theorem preserveAspectFit_geometry (s : QDeclarativeVideoOutput)
    (hW : 0 < s.width) (hH : 0 < s.height)
    (hw : 0 < s.m_nativeSize.wd) (hh : 0 < s.m_nativeSize.ht)
    (hm : s.m_fillMode = FillMode.PreserveAspectFit) :
    s._q_updateGeometry.m_boundingRect.w * (s.m_nativeSize.ht : ℚ) =
        s._q_updateGeometry.m_boundingRect.h * (s.m_nativeSize.wd : ℚ) ∧
      0 < s._q_updateGeometry.m_boundingRect.w ∧
      0 < s._q_updateGeometry.m_boundingRect.h ∧
      0 ≤ s._q_updateGeometry.m_boundingRect.xp ∧
      0 ≤ s._q_updateGeometry.m_boundingRect.yp ∧
      s._q_updateGeometry.m_boundingRect.xp + s._q_updateGeometry.m_boundingRect.w ≤ s.width ∧
      s._q_updateGeometry.m_boundingRect.yp + s._q_updateGeometry.m_boundingRect.h ≤ s.height ∧
      (s._q_updateGeometry.m_boundingRect.w = s.width ∨
        s._q_updateGeometry.m_boundingRect.h = s.height) ∧
      s._q_updateGeometry.m_boundingRect.center = ⟨s.width / 2, s.height / 2⟩ ∧
      s._q_updateGeometry.m_sourceRect = ⟨0, 0, 1, 1⟩ := by
  obtain ⟨hb, hsrc⟩ := updateGeometry_fit s hw hh hm
  have hwq : (0 : ℚ) < (s.m_nativeSize.wd : ℚ) := by exact_mod_cast hw
  have hhq : (0 : ℚ) < (s.m_nativeSize.ht : ℚ) := by exact_mod_cast hh
  rw [hb, hsrc]
  by_cases c : s.height * (s.m_nativeSize.wd : ℚ) / (s.m_nativeSize.ht : ℚ) ≤ s.width
  · have hpos : 0 < s.height * (s.m_nativeSize.wd : ℚ) / (s.m_nativeSize.ht : ℚ) :=
      div_pos (mul_pos hH hwq) hhq
    rw [if_pos c]
    refine ⟨?_, hpos, hH, ?_, ?_, ?_, ?_, Or.inr rfl, ?_, rfl⟩
    · dsimp only
      field_simp
    · dsimp only
      linarith
    · dsimp only
      linarith
    · dsimp only
      linarith
    · dsimp only
      linarith
    · simp only [QRectF.center]
      congr 1 <;> ring
  · have hlt : s.width < s.height * (s.m_nativeSize.wd : ℚ) / (s.m_nativeSize.ht : ℚ) :=
      lt_of_not_le c
    have hpos : 0 < s.width * (s.m_nativeSize.ht : ℚ) / (s.m_nativeSize.wd : ℚ) :=
      div_pos (mul_pos hW hhq) hwq
    have hle : s.width * (s.m_nativeSize.ht : ℚ) / (s.m_nativeSize.wd : ℚ) ≤ s.height := by
      rw [lt_div_iff₀ hhq] at hlt
      rw [div_le_iff₀ hwq]
      linarith
    rw [if_neg c]
    refine ⟨?_, hW, hpos, ?_, ?_, ?_, ?_, Or.inl rfl, ?_, rfl⟩
    · dsimp only
      field_simp
    · dsimp only
      linarith
    · dsimp only
      linarith
    · dsimp only
      linarith
    · dsimp only
      linarith
    · simp only [QRectF.center]
      congr 1 <;> ring

theorem preserveAspectFit_geometry_witness :
    (sampleItem FillMode.PreserveAspectFit ⟨16, 9⟩ 100 100)._q_updateGeometry.m_boundingRect.w
        * (9 : ℚ) =
      (sampleItem FillMode.PreserveAspectFit ⟨16, 9⟩ 100 100)._q_updateGeometry.m_boundingRect.h
        * (16 : ℚ) := by
  have h := (preserveAspectFit_geometry (sampleItem FillMode.PreserveAspectFit ⟨16, 9⟩ 100 100)
    (by norm_num [sampleItem, QDeclarativeVideoOutput.setSize])
    (by norm_num [sampleItem, QDeclarativeVideoOutput.setSize])
    (by decide) (by decide) rfl).1
  simpa using h

/-! ## PreserveAspectCrop -/

/-- C2: with fill mode PreserveAspectCrop, a positive item size `W x H` and a non-empty native
size `w x h`, after `_q_updateGeometry` the bounding rectangle is the whole item rectangle
`(0, 0, W, H)`, and the source rectangle has positive size, lies inside the unit square, is
centred at `(1/2, 1/2)`, has width 1 or height 1, and selects a region of the frame with the
item's aspect ratio. -/
theorem preserveAspectCrop_geometry (s : QDeclarativeVideoOutput)
    (hW : 0 < s.width) (hH : 0 < s.height)
    (hw : 0 < s.m_nativeSize.wd) (hh : 0 < s.m_nativeSize.ht)
    (hm : s.m_fillMode = FillMode.PreserveAspectCrop) :
    s._q_updateGeometry.m_boundingRect = ⟨0, 0, s.width, s.height⟩ ∧
      0 < s._q_updateGeometry.m_sourceRect.w ∧
      0 < s._q_updateGeometry.m_sourceRect.h ∧
      0 ≤ s._q_updateGeometry.m_sourceRect.xp ∧
      0 ≤ s._q_updateGeometry.m_sourceRect.yp ∧
      s._q_updateGeometry.m_sourceRect.xp + s._q_updateGeometry.m_sourceRect.w ≤ 1 ∧
      s._q_updateGeometry.m_sourceRect.yp + s._q_updateGeometry.m_sourceRect.h ≤ 1 ∧
      s._q_updateGeometry.m_sourceRect.center = ⟨1 / 2, 1 / 2⟩ ∧
      (s._q_updateGeometry.m_sourceRect.w = 1 ∨ s._q_updateGeometry.m_sourceRect.h = 1) ∧
      (s._q_updateGeometry.m_sourceRect.w * (s.m_nativeSize.wd : ℚ)) * s.height =
        (s._q_updateGeometry.m_sourceRect.h * (s.m_nativeSize.ht : ℚ)) * s.width := by
  obtain ⟨hb, hsrc⟩ := updateGeometry_crop s hW.ne.symm hH.ne.symm hw hh hm
  have hwq : (0 : ℚ) < (s.m_nativeSize.wd : ℚ) := by exact_mod_cast hw
  have hhq : (0 : ℚ) < (s.m_nativeSize.ht : ℚ) := by exact_mod_cast hh
  have hw1 : (s.m_nativeSize.wd : ℚ) / (s.m_nativeSize.wd : ℚ) = 1 := div_self hwq.ne.symm
  have hh1 : (s.m_nativeSize.ht : ℚ) / (s.m_nativeSize.ht : ℚ) = 1 := div_self hhq.ne.symm
  rw [hb, hsrc]
  by_cases c : (s.m_nativeSize.ht : ℚ) * s.width / s.height ≤ (s.m_nativeSize.wd : ℚ)
  · have hpos : 0 < (s.m_nativeSize.ht : ℚ) * s.width / s.height / (s.m_nativeSize.wd : ℚ) :=
      div_pos (div_pos (mul_pos hhq hW) hH) hwq
    have hle : (s.m_nativeSize.ht : ℚ) * s.width / s.height / (s.m_nativeSize.wd : ℚ) ≤ 1 := by
      rw [div_le_iff₀ hwq]
      linarith
    rw [if_pos c]
    refine ⟨rfl, hpos, ?_, ?_, ?_, ?_, ?_, ?_, Or.inr hh1, ?_⟩
    · dsimp only
      rw [hh1]
      exact one_pos
    · dsimp only
      linarith
    · dsimp only
      rw [hh1]
      norm_num
    · dsimp only
      linarith
    · dsimp only
      rw [hh1]
      norm_num
    · simp only [QRectF.center]
      congr 1 <;> ring
    · dsimp only
      field_simp
      ring
  · have hlt : (s.m_nativeSize.wd : ℚ) < (s.m_nativeSize.ht : ℚ) * s.width / s.height :=
      lt_of_not_le c
    have hpos : 0 < (s.m_nativeSize.wd : ℚ) * s.height / s.width / (s.m_nativeSize.ht : ℚ) :=
      div_pos (div_pos (mul_pos hwq hH) hW) hhq
    have hle : (s.m_nativeSize.wd : ℚ) * s.height / s.width / (s.m_nativeSize.ht : ℚ) ≤ 1 := by
      rw [lt_div_iff₀ hH] at hlt
      rw [div_le_iff₀ hhq, div_le_iff₀ hW]
      linarith
    rw [if_neg c]
    refine ⟨rfl, ?_, hpos, ?_, ?_, ?_, ?_, ?_, Or.inl hw1, ?_⟩
    · dsimp only
      rw [hw1]
      exact one_pos
    · dsimp only
      rw [hw1]
      norm_num
    · dsimp only
      linarith
    · dsimp only
      rw [hw1]
      norm_num
    · dsimp only
      linarith
    · simp only [QRectF.center]
      congr 1 <;> ring
    · dsimp only
      field_simp
      ring

theorem preserveAspectCrop_geometry_witness :
    (sampleItem FillMode.PreserveAspectCrop ⟨16, 9⟩ 100 100)._q_updateGeometry.m_boundingRect
      = ⟨0, 0, 100, 100⟩ := by
  have h := (preserveAspectCrop_geometry (sampleItem FillMode.PreserveAspectCrop ⟨16, 9⟩ 100 100)
    (by norm_num [sampleItem, QDeclarativeVideoOutput.setSize])
    (by norm_num [sampleItem, QDeclarativeVideoOutput.setSize])
    (by decide) (by decide) rfl).1
  simpa using h

/-! ## Stretch -/

/-- C3: with fill mode Stretch, for every item size and every native size (empty or not),
`_q_updateGeometry` makes the bounding rectangle the item rectangle `(0, 0, W, H)` and the
source rectangle the whole frame `(0, 0, 1, 1)`. -/
theorem stretch_fills_item (s : QDeclarativeVideoOutput) (hm : s.m_fillMode = FillMode.Stretch) :
    s._q_updateGeometry.m_boundingRect = ⟨0, 0, s.width, s.height⟩ ∧
      s._q_updateGeometry.m_sourceRect = ⟨0, 0, 1, 1⟩ := by
  exact updateGeometry_stretch s hm

theorem stretch_fills_item_witness :
    (sampleItem FillMode.Stretch ⟨16, 9⟩ 100 100).m_fillMode = FillMode.Stretch ∧
      (sampleItem FillMode.Stretch ⟨16, 9⟩ 100 100)._q_updateGeometry.m_boundingRect
        = ⟨0, 0, (sampleItem FillMode.Stretch ⟨16, 9⟩ 100 100).width,
            (sampleItem FillMode.Stretch ⟨16, 9⟩ 100 100).height⟩ ∧
      (sampleItem FillMode.Stretch ⟨16, 9⟩ 100 100)._q_updateGeometry.m_sourceRect
        = ⟨0, 0, 1, 1⟩ :=
  ⟨rfl, stretch_fills_item (sampleItem FillMode.Stretch ⟨16, 9⟩ 100 100) rfl⟩

/-! ## Fill mode property -/

/-- C5: a freshly constructed item, whatever its parent, reports PreserveAspectFit as its
fill mode before any call of `setFillMode`. -/
theorem default_fillMode (i420 rgb : QSGVideoNodeFactory) (parent : Option Nat) :
    (QDeclarativeVideoOutput.new i420 rgb parent).fillMode = FillMode.PreserveAspectFit := by
  rfl

/-- C6: after `setFillMode m` the getter returns `m`; when `m` differs from the previous mode
the only changes are the stored mode and one `update()` followed by one `fillModeChanged(m)`
appended to the log; when `m` equals the previous mode the item is entirely unchanged; and
calling `setFillMode m` a second time changes nothing. -/
theorem setFillMode_spec (s : QDeclarativeVideoOutput) (m : FillMode) :
    (s.setFillMode m).fillMode = m ∧
      (m ≠ s.fillMode →
        s.setFillMode m =
            { s with m_fillMode := m, log := s.log ++ [Event.update, Event.fillModeChanged m] } ∧
          ((s.setFillMode m).log.drop s.log.length).count Event.update = 1 ∧
          ((s.setFillMode m).log.drop s.log.length).count (Event.fillModeChanged m) = 1) ∧
      (m = s.fillMode → s.setFillMode m = s) ∧
      (s.setFillMode m).setFillMode m = s.setFillMode m := by
  unfold QDeclarativeVideoOutput.fillMode
  by_cases h : m = s.m_fillMode
  · simp [QDeclarativeVideoOutput.setFillMode, h]
  · simp [QDeclarativeVideoOutput.setFillMode, h, QDeclarativeVideoOutput.update,
      QDeclarativeVideoOutput.emit]

theorem setFillMode_spec_witness :
    ((QDeclarativeVideoOutput.new (singleFormatFactory 1 18) (singleFormatFactory 2 3)
        none).setFillMode FillMode.Stretch).log = [Event.update, Event.fillModeChanged FillMode.Stretch] ∧
      (QDeclarativeVideoOutput.new (singleFormatFactory 1 18) (singleFormatFactory 2 3)
        none).setFillMode FillMode.PreserveAspectFit
        = QDeclarativeVideoOutput.new (singleFormatFactory 1 18) (singleFormatFactory 2 3) none := by
  constructor
  · have h := ((setFillMode_spec (QDeclarativeVideoOutput.new (singleFormatFactory 1 18)
      (singleFormatFactory 2 3) none) FillMode.Stretch).2.1 (by decide)).1
    rw [h]
    rfl
  · exact (setFillMode_spec (QDeclarativeVideoOutput.new (singleFormatFactory 1 18)
      (singleFormatFactory 2 3) none) FillMode.PreserveAspectFit).2.2.1 rfl

/-! ## Frame presentation -/

/-- C7: `QSGVideoItemSurface::present(f)` returns true exactly when `f` is valid; for a valid
`f` the item's current frame becomes `f` and one repaint request is logged, nothing else
changing; for an invalid `f` the item is left entirely unchanged. -/
theorem surface_present_spec (item : QDeclarativeVideoOutput) (f : QVideoFrame) :
    ((QSGVideoItemSurface.present item f).value = true ↔ f.isValid = true) ∧
      (f.isValid = true →
        (QSGVideoItemSurface.present item f).item.m_frame = f ∧
          (QSGVideoItemSurface.present item f).item.log = item.log ++ [Event.update] ∧
          (QSGVideoItemSurface.present item f).item =
            { item with m_frame := f, log := item.log ++ [Event.update] }) ∧
      (f.isValid = false → (QSGVideoItemSurface.present item f).item = item) := by
  unfold QSGVideoItemSurface.present
  by_cases h : f.isValid = true
  · simp [h, QDeclarativeVideoOutput.present, QDeclarativeVideoOutput.update]
  · simp [h]

theorem surface_present_spec_witness :
    (QSGVideoItemSurface.present (sampleItem FillMode.Stretch ⟨16, 9⟩ 100 100) ⟨some 1, 3⟩).item.m_frame
        = ⟨some 1, 3⟩ ∧
      (QSGVideoItemSurface.present (sampleItem FillMode.Stretch ⟨16, 9⟩ 100 100) ⟨none, 3⟩).item
        = sampleItem FillMode.Stretch ⟨16, 9⟩ 100 100 :=
  ⟨((surface_present_spec (sampleItem FillMode.Stretch ⟨16, 9⟩ 100 100) ⟨some 1, 3⟩).2.1 rfl).1,
    (surface_present_spec (sampleItem FillMode.Stretch ⟨16, 9⟩ 100 100) ⟨none, 3⟩).2.2 rfl⟩

/-! ## Untransformed presentation -/

/-- C4, as stated, fails: no fill mode makes the bounding rectangle the native size for every
item size.  For an item of size `4 x 4` and native size `1 x 1` each of the three fill modes
yields a bounding rectangle of size `4 x 4`. -/
theorem no_untransformed_fillMode :
    ¬ ∃ m : FillMode, ∀ s : QDeclarativeVideoOutput, s.m_fillMode = m →
        s.m_nativeSize.isEmpty = false →
        s._q_updateGeometry.m_boundingRect.size = s.m_nativeSize.toQSizeF ∧
          s._q_updateGeometry.m_sourceRect = ⟨0, 0, 1, 1⟩ := by
  rintro ⟨m, h⟩
  have hm : (sampleItem m ⟨1, 1⟩ 4 4).m_fillMode = m := sampleItem_fillMode m _ _ _
  have hn : (sampleItem m ⟨1, 1⟩ 4 4).m_nativeSize = ⟨1, 1⟩ := sampleItem_nativeSize m _ _ _
  have hW : (sampleItem m ⟨1, 1⟩ 4 4).width = 4 := rfl
  have hH : (sampleItem m ⟨1, 1⟩ 4 4).height = 4 := rfl
  have hw : 0 < (sampleItem m ⟨1, 1⟩ 4 4).m_nativeSize.wd := by rw [hn]; decide
  have hh : 0 < (sampleItem m ⟨1, 1⟩ 4 4).m_nativeSize.ht := by rw [hn]; decide
  have h1 := (h (sampleItem m ⟨1, 1⟩ 4 4) hm ((isEmpty_eq_false_iff _).2 ⟨hw, hh⟩)).1
  cases m with
  | Stretch =>
    rw [(updateGeometry_stretch _ hm).1, hn, hW, hH] at h1
    norm_num [QRectF.size, QSize.toQSizeF] at h1
  | PreserveAspectFit =>
    rw [(updateGeometry_fit _ hw hh hm).1, hn, hW, hH] at h1
    norm_num [QRectF.size, QSize.toQSizeF] at h1
  | PreserveAspectCrop =>
    rw [(updateGeometry_crop _ (by rw [hW]; norm_num) (by rw [hH]; norm_num) hw hh hm).1,
      hW, hH, hn] at h1
    norm_num [QRectF.size, QSize.toQSizeF] at h1

/-- C4, amended: when the item size equals the non-empty native size `w x h`, every fill mode
makes `_q_updateGeometry` yield the bounding rectangle `(0, 0, w, h)`, the video at scale 1:1,
with the whole frame `(0, 0, 1, 1)` as source rectangle. -/
theorem untransformed_at_native_size (s : QDeclarativeVideoOutput)
    (hw : 0 < s.m_nativeSize.wd) (hh : 0 < s.m_nativeSize.ht)
    (hW : s.width = (s.m_nativeSize.wd : ℚ)) (hH : s.height = (s.m_nativeSize.ht : ℚ)) :
    s._q_updateGeometry.m_boundingRect =
        ⟨0, 0, (s.m_nativeSize.wd : ℚ), (s.m_nativeSize.ht : ℚ)⟩ ∧
      s._q_updateGeometry.m_boundingRect.size = s.m_nativeSize.toQSizeF ∧
      s._q_updateGeometry.m_sourceRect = ⟨0, 0, 1, 1⟩ := by
  have hwq : (0 : ℚ) < (s.m_nativeSize.wd : ℚ) := by exact_mod_cast hw
  have hhq : (0 : ℚ) < (s.m_nativeSize.ht : ℚ) := by exact_mod_cast hh
  have hWp : 0 < s.width := by rw [hW]; exact hwq
  have hHp : 0 < s.height := by rw [hH]; exact hhq
  have c1 : s.height * (s.m_nativeSize.wd : ℚ) / (s.m_nativeSize.ht : ℚ) = s.width := by
    rw [hW, hH]
    field_simp
  have c2 : (s.m_nativeSize.ht : ℚ) * s.width / s.height = (s.m_nativeSize.wd : ℚ) := by
    rw [hW, hH]
    field_simp
  cases hm : s.m_fillMode with
  | Stretch =>
    have he : s.m_nativeSize.isEmpty = false := (isEmpty_eq_false_iff _).2 ⟨hw, hh⟩
    simp [QDeclarativeVideoOutput._q_updateGeometry, he, hm, hW, hH, QRectF.size,
      QSize.toQSizeF]
  | PreserveAspectFit =>
    obtain ⟨hb, hsrc⟩ := updateGeometry_fit s hw hh hm
    rw [hb, hsrc, c1, if_pos le_rfl]
    simp [QRectF.size, QSize.toQSizeF, hW, hH]
  | PreserveAspectCrop =>
    obtain ⟨hb, hsrc⟩ := updateGeometry_crop s hWp.ne.symm hHp.ne.symm hw hh hm
    rw [hb, hsrc, c2, if_pos le_rfl]
    simp [QRectF.size, QSize.toQSizeF, hW, hH, hwq.ne.symm, hhq.ne.symm]

theorem untransformed_at_native_size_witness :
    (sampleItem FillMode.PreserveAspectCrop ⟨16, 9⟩ 16 9)._q_updateGeometry.m_sourceRect
      = ⟨0, 0, 1, 1⟩ :=
  (untransformed_at_native_size (sampleItem FillMode.PreserveAspectCrop ⟨16, 9⟩ 16 9)
    (by decide) (by decide)
    (by rw [sampleItem_nativeSize]; norm_num [sampleItem, QDeclarativeVideoOutput.setSize])
    (by rw [sampleItem_nativeSize]; norm_num [sampleItem, QDeclarativeVideoOutput.setSize])).2.2

/-! ## Paint node -/

/-- C8: `updatePaintNode` returns no node when the current frame is invalid.  When the frame
is valid and there is no old node with the frame's pixel format, it returns the node created by
the first factory in list order whose `createNode` on the surface format is not null, or no
node when every factory returns null; a constructed item holds the I420 factory before the RGB
one.  Any node returned carries the bounding and source rectangles computed by
`_q_updateGeometry` and the item's current frame, and the item afterwards is the result of
`_q_updateGeometry`. -/
theorem updatePaintNode_spec (s : QDeclarativeVideoOutput) (oldNode : Option QSGVideoNode) :
    (s.m_frame.isValid = false → (s.updatePaintNode oldNode).1 = none) ∧
      (s.m_frame.isValid = true →
        (∀ n, oldNode = some n → n.pixelFormat ≠ s.m_frame.pixelFormat) →
        ((∃ pre f post n0, s.m_videoNodeFactories = pre ++ f :: post ∧
            (∀ g ∈ pre, g.createNode s.surfaceFormat = none) ∧
            f.createNode s.surfaceFormat = some n0 ∧
            (s.updatePaintNode oldNode).1 =
              some ((n0.setTexturedRectGeometry s._q_updateGeometry.m_boundingRect
                s._q_updateGeometry.m_sourceRect).setCurrentFrame s.m_frame)) ∨
          ((∀ g ∈ s.m_videoNodeFactories, g.createNode s.surfaceFormat = none) ∧
            (s.updatePaintNode oldNode).1 = none))) ∧
      (∀ i420 rgb parent,
        (QDeclarativeVideoOutput.new i420 rgb parent).m_videoNodeFactories = [i420, rgb]) ∧
      (∀ n, (s.updatePaintNode oldNode).1 = some n →
        n.m_rect = s._q_updateGeometry.m_boundingRect ∧
          n.m_textureRect = s._q_updateGeometry.m_sourceRect ∧
          n.m_frame = s.m_frame ∧
          (s.updatePaintNode oldNode).2 = s._q_updateGeometry) := by
  have hframe : s._q_updateGeometry.m_frame = s.m_frame := updateGeometry_frame s
  refine ⟨?_, ?_, fun _ _ _ => rfl, ?_⟩
  · intro hv
    simp [QDeclarativeVideoOutput.updatePaintNode, hv]
  · intro hv hold
    have hnone : (match oldNode with
        | some n => if n.pixelFormat ≠ s.m_frame.pixelFormat then none else some n
        | none => none) = none := by
      cases oldNode with
      | none => rfl
      | some n => simp [hold n rfl]
    rcases createFirstNode_spec s.surfaceFormat s.m_videoNodeFactories with
      ⟨pre, f, post, n0, hsplit, hpre, hf, hres⟩ | ⟨hall, hres⟩
    · refine Or.inl ⟨pre, f, post, n0, hsplit, hpre, hf, ?_⟩
      simp only [QDeclarativeVideoOutput.updatePaintNode, hnone, hv, hres, hframe]
      rfl
    · refine Or.inr ⟨hall, ?_⟩
      simp only [QDeclarativeVideoOutput.updatePaintNode, hnone, hv, hres]
      rfl
  · intro n hn
    unfold QDeclarativeVideoOutput.updatePaintNode at hn ⊢
    cases hv : s.m_frame.isValid with
    | false => simp [hv] at hn
    | true =>
      simp only [hv, Bool.not_true, Bool.false_eq_true, if_false] at hn ⊢
      split at hn
      · simp at hn
      · rename_i n1 hn1
        simp only [Option.some.injEq] at hn
        subst hn
        simp only [hn1]
        exact ⟨rfl, rfl, hframe, trivial⟩

theorem updatePaintNode_spec_witness :
    ((sampleItem FillMode.Stretch ⟨16, 9⟩ 100 100).updatePaintNode none).1 = none ∧
      ((QSGVideoItemSurface.present (sampleItem FillMode.Stretch ⟨16, 9⟩ 100 100)
          ⟨some 1, 3⟩).item.updatePaintNode none).1 ≠ none := by
  refine ⟨(updatePaintNode_spec (sampleItem FillMode.Stretch ⟨16, 9⟩ 100 100) none).1 rfl, ?_⟩
  rcases (updatePaintNode_spec (QSGVideoItemSurface.present
      (sampleItem FillMode.Stretch ⟨16, 9⟩ 100 100) ⟨some 1, 3⟩).item none).2.1 rfl
      (fun n hn => by cases hn) with ⟨_, _, _, _, _, _, _, hres⟩ | ⟨hall, _⟩
  · rw [hres]
    simp
  · exact absurd (hall (singleFormatFactory 2 3) (by simp [sampleItem_factories])) (by
      simp [singleFormatFactory, sampleItem_surfaceFormat])

end VideoOutput
